import Mathlib

/-!
Shallow embedding of `ico2png.py` (Python 2): converting the byte string of
an ICO file to the data handed to the PNG writer.

Bytes are modelled as `List Nat` (each element a value 0..255).  Python
string slicing `data[a:b]` clamps to the buffer and never fails; `unpack`
fails with `struct.error` when the slice length does not match the format
size.  The source raises bare `TypeError` at its four explicit failure
sites; the spec names the two at the header stage `FormatError` and the two
at the DIB stage `UnsupportedFormatError`, and we keep the sites apart with
those two constructors.  Failures the source does not raise itself —
`struct.error` from an unguarded `unpack`, `ValueError` from `max` of an
empty list, `IndexError` from list subscripts — get their own constructors.
-/

namespace IcoPng

/-- Failure kinds of `ico2png`.  `formatError` models the `raise TypeError`
at the two header-validation sites; `unsupportedFormatError` the
`raise TypeError` at the two DIB sites (`dib_size != 40`, unknown pixel
depth); the remaining constructors model unhandled Python exceptions:
`struct.error` from `unpack` on a short slice, `ValueError` from `max` of
an empty sequence, `IndexError` from a list subscript out of range. -/
inductive IcoError where
  | formatError
  | unsupportedFormatError
  | structError
  | valueError
  | indexError
deriving Repr, DecidableEq

/-- Result of a conversion: either the verbatim byte tail returned on the
embedded-PNG branch, or the `(width, height, pixels)` triple handed to the
PNG writer, `pixels` being the row-major list of rows of channel bytes. -/
inductive IcoOutput where
  | passthrough (bytes : List Nat)
  | image (width height : Nat) (pixels : List (List Nat))
deriving Repr, DecidableEq

/-- Byte at index `i` (only consulted after the surrounding code has
checked the index is in range, mirroring a successful `unpack`). -/
def u8 (data : List Nat) (i : Nat) : Nat := data.getD i 0

/-- Little-endian 16-bit read, as `unpack` with format `H`. -/
def u16le (data : List Nat) (i : Nat) : Nat :=
  u8 data i + 256 * u8 data (i + 1)

/-- Little-endian 32-bit read, as `unpack` with format `I` or `L`. -/
def u32le (data : List Nat) (i : Nat) : Nat :=
  u8 data i + 256 * u8 data (i + 1) + 65536 * u8 data (i + 2) +
    16777216 * u8 data (i + 3)

/-- Python slice `data[a:b]` for `0 ≤ a ≤ b`: clamps to the buffer. -/
def pySlice (data : List Nat) (a b : Nat) : List Nat := (data.take b).drop a

/-- `_bitlist(byte)`: the 8 bits of a byte, most significant first
(`[(byte / 2 ** x) & 1 for x in xrange(7,-1,-1)]`). -/
def bitlist (b : Nat) : List Nat :=
  [b / 128 % 2, b / 64 % 2, b / 32 % 2, b / 16 % 2,
   b / 8 % 2, b / 4 % 2, b / 2 % 2, b % 2]

/-- `_bitlistvalue(l)`: `reduce(lambda x, y: 2 * x + y, l, 0)`. -/
def bitlistvalue (l : List Nat) : Nat := l.foldl (fun x y => 2 * x + y) 0

/-- One icon directory record, the 8 fields of `unpack('<4B2H2I', …)` in
order: four bytes (width, height, colorCount, reserved), two 16-bit words
(planes, bitCount), two 32-bit words (bytesInRes, imageOffset). -/
structure DirEntry where
  w : Nat
  h : Nat
  cc : Nat
  reserved : Nat
  planes : Nat
  bitCount : Nat
  bytesInRes : Nat
  offset : Nat
deriving Repr, DecidableEq

/-- The raw 16-byte directory record number `i`, starting at byte
`6 + 16 * i`, before zero-as-256 normalization. -/
def rawEntry (data : List Nat) (i : Nat) : DirEntry :=
  { w := u8 data (6 + 16 * i)
    h := u8 data (6 + 16 * i + 1)
    cc := u8 data (6 + 16 * i + 2)
    reserved := u8 data (6 + 16 * i + 3)
    planes := u16le data (6 + 16 * i + 4)
    bitCount := u16le data (6 + 16 * i + 6)
    bytesInRes := u32le data (6 + 16 * i + 8)
    offset := u32le data (6 + 16 * i + 12) }

/-- The loop `for j in xrange(3): if not directory[j]: directory[j] = 256`:
each of the first three fields is replaced by 256 when it is 0. -/
def normEntry (e : DirEntry) : DirEntry :=
  { e with
    w := if e.w = 0 then 256 else e.w
    h := if e.h = 0 then 256 else e.h
    cc := if e.cc = 0 then 256 else e.cc }

/-- Directory record `i` as appended to `directories`: parsed then
normalized. -/
def parseEntry (data : List Nat) (i : Nat) : DirEntry :=
  normEntry (rawEntry data i)

/-- The `directories` list: one normalized record per image, the image
count being the third header word. -/
def icoDirectories (data : List Nat) : List DirEntry :=
  (List.range (u16le data 4)).map (parseEntry data)

/-- Python list comparison `x[0:3] < y[0:3]` on the three leading fields:
lexicographic on (width, height, colorCount). -/
def keyLt (a b : DirEntry) : Prop :=
  a.w < b.w ∨ (a.w = b.w ∧ (a.h < b.h ∨ (a.h = b.h ∧ a.cc < b.cc)))

instance (a b : DirEntry) : Decidable (keyLt a b) := by
  unfold keyLt; infer_instance

/-- `max(directories, key=(lambda x:x[0:3]))`: `none` on the empty list
(Python raises `ValueError` there); otherwise the first entry whose key no
later entry strictly exceeds, folding left and replacing the current best
only on a strict key increase. -/
def selectBest : List DirEntry → Option DirEntry
  | [] => none
  | d :: ds => some (ds.foldl (fun best e => if keyLt best e then e else best) d)

/-- The PNG signature string `"\211PNG\r\n\032\n"`. -/
def pngSignature : List Nat := [137, 80, 78, 71, 13, 10, 26, 10]

/-- Effectful map for list comprehensions whose element expression can
raise: elements are produced left to right and the first failure aborts
the whole comprehension, as in Python. -/
def mapE {α β : Type} (f : α → Except IcoError β) : List α → Except IcoError (List β)
  | [] => Except.ok []
  | a :: as => do
    let b ← f a
    let bs ← mapE f as
    pure (b :: bs)

/-- The inner `get_pixel(x, y)` closure of the palette-indexed path.  A
set AND-mask bit yields the transparent quad `(0,0,0,0)`; otherwise the
`bpp`-bit group of the XOR map selects a palette color, emitted with
alpha 255.  List subscripts out of range model Python `IndexError`. -/
def get_pixel (palette : List (Nat × Nat × Nat)) (xorBits andBits : List Nat)
    (bpp width height andRowSize x y : Nat) : Except IcoError (List Nat) :=
  match andBits.get? ((height - y - 1) * andRowSize * 8 + x) with
  | none => Except.error IcoError.indexError
  | some b =>
    if b = 1 then Except.ok [0, 0, 0, 0]
    else
      match palette.get?
          (bitlistvalue (pySlice xorBits
            (bpp * ((height - y - 1) * width + x))
            (bpp * ((height - y - 1) * width + x) + bpp))) with
      | none => Except.error IcoError.indexError
      | some c => Except.ok [c.1, c.2.1, c.2.2, 255]

/-- The `bits_per_pixel <= 8` branch: palette of `2 ** bpp` four-byte
(blue, green, red, reserved) quads reordered to (r, g, b) triples, XOR-map
bits, AND-map bits, then rows of `get_pixel` quads flattened per row, `y`
top to bottom.  A palette quad extending past the buffer is a failed
`unpack` (`struct.error`); the bit slices clamp like Python slices. -/
def decodePalette (data : List Nat) (width height offset bpp bmpBytes : Nat) :
    Except IcoError IcoOutput :=
  let cc := 2 ^ bpp
  if data.length < offset + 40 + 4 * cc then Except.error IcoError.structError
  else
    let palette := (List.range cc).map (fun i =>
      (u8 data (offset + 40 + 4 * i + 2),
       u8 data (offset + 40 + 4 * i + 1),
       u8 data (offset + 40 + 4 * i)))
    let xorBits := (pySlice data (offset + 40 + 4 * cc)
      (offset + 40 + 4 * cc + bmpBytes)).flatMap bitlist
    let andRowSize := ((width + 31) >>> 5) <<< 2
    let andBits := (pySlice data (offset + 40 + 4 * cc + bmpBytes)
      (offset + 40 + 4 * cc + bmpBytes + andRowSize * height)).flatMap bitlist
    do
      let rows ← mapE (fun y => do
          let pxs ← mapE (fun x =>
              get_pixel palette xorBits andBits bpp width height andRowSize x y)
            (List.range width)
          pure pxs.flatten)
        (List.range height)
      pure (IcoOutput.image width height rows)

/-- The `bits_per_pixel == 32` branch: source rows read bottom to top,
each pixel a four-byte `unpack` `(b, g, r, a)` re-emitted as
`(px[2], px[1], px[0], px[3])`; a pixel extending past the buffer is a
failed `unpack`.  The unpack of the raw quad and its channel reordering
are fused into one step here. -/
def decode32 (data : List Nat) (width height offset : Nat) :
    Except IcoError IcoOutput := do
  let rows ← mapE (fun y => do
      let pxs ← mapE (fun x =>
          if data.length < offset + 40 + 4 * (y * width + x) + 4 then
            Except.error IcoError.structError
          else
            Except.ok [u8 data (offset + 40 + 4 * (y * width + x) + 2),
                       u8 data (offset + 40 + 4 * (y * width + x) + 1),
                       u8 data (offset + 40 + 4 * (y * width + x)),
                       u8 data (offset + 40 + 4 * (y * width + x) + 3)])
        (List.range width)
      pure pxs.flatten)
    ((List.range height).reverse)
  pure (IcoOutput.image width height rows)

/-- The `bits_per_pixel == 24` branch: like the 32-bit branch with
three-byte pixels `(b, g, r)` re-emitted as `(px[2], px[1], px[0], 255)`. -/
def decode24 (data : List Nat) (width height offset : Nat) :
    Except IcoError IcoOutput := do
  let rows ← mapE (fun y => do
      let pxs ← mapE (fun x =>
          if data.length < offset + 40 + 3 * (y * width + x) + 3 then
            Except.error IcoError.structError
          else
            Except.ok [u8 data (offset + 40 + 3 * (y * width + x) + 2),
                       u8 data (offset + 40 + 3 * (y * width + x) + 1),
                       u8 data (offset + 40 + 3 * (y * width + x)),
                       255])
        (List.range width)
      pure pxs.flatten)
    ((List.range height).reverse)
  pure (IcoOutput.image width height rows)

/-- The DIB branch of `ico2png`: read `dib_size` (a failed 4-byte `unpack`
is `struct.error`), reject `dib_size != 40`, unpack the 40-byte header
(`bits_per_pixel` is the word at `offset + 14`, `imageSize` the 32-bit
word at `offset + 20`, recomputed as `width * height * bpp / 8` when 0),
and dispatch on the pixel depth; any depth above 8 other than 24 and 32
is rejected. -/
def decodeDib (data : List Nat) (width height offset : Nat) :
    Except IcoError IcoOutput :=
  if data.length < offset + 4 then Except.error IcoError.structError
  else if u32le data offset ≠ 40 then Except.error IcoError.unsupportedFormatError
  else if data.length < offset + 40 then Except.error IcoError.structError
  else if u16le data (offset + 14) ≤ 8 then
    decodePalette data width height offset (u16le data (offset + 14))
      (if u32le data (offset + 20) = 0 then
        width * height * u16le data (offset + 14) / 8
      else u32le data (offset + 20))
  else if u16le data (offset + 14) = 32 then decode32 data width height offset
  else if u16le data (offset + 14) = 24 then decode24 data width height offset
  else Except.error IcoError.unsupportedFormatError

/-- `ico2png(data)`: validate the 6-byte header, collect the directory
(an entry record extending past the buffer is a failed `unpack`,
`struct.error`), pick the best entry, and either pass the tail through on
the embedded-PNG test `data[offset:offset+16] == "\211PNG\r\n\032\n"` or
decode the DIB using the directory entry's width, height and offset. -/
def ico2png (data : List Nat) : Except IcoError IcoOutput :=
  if data.length < 6 then Except.error IcoError.formatError
  else if ¬(u16le data 0 = 0 ∧ u16le data 2 = 1) then Except.error IcoError.formatError
  else if 0 < u16le data 4 ∧ data.length < 6 + 16 * u16le data 4 then
    Except.error IcoError.structError
  else
    match selectBest (icoDirectories data) with
    | none => Except.error IcoError.valueError
    | some d =>
      if pySlice data d.offset (d.offset + 16) = pngSignature then
        Except.ok (IcoOutput.passthrough (data.drop d.offset))
      else decodeDib data d.w d.h d.offset

/-! ### Concrete inputs used to exercise the conversion -/

/-- A one-entry ICO holding a 1×1 32-bit DIB whose single pixel is the
quad `(blue, green, red, reserved) = (1, 2, 3, 7)`. -/
def dib32Ico : List Nat :=
  [0, 0, 1, 0, 1, 0,
   1, 1, 1, 0, 1, 0, 32, 0, 44, 0, 0, 0, 22, 0, 0, 0,
   40, 0, 0, 0, 1, 0, 0, 0, 1, 0, 0, 0, 1, 0, 32, 0, 0, 0, 0, 0, 4, 0, 0, 0,
   0, 0, 0, 0, 0, 0, 0, 0, 0, 0, 0, 0, 0, 0, 0, 0,
   1, 2, 3, 7]

/-- A one-entry ICO whose payload at the selected offset 22 starts with
the full 8-byte PNG signature, followed by one further byte. -/
def pngTailIco : List Nat :=
  [0, 0, 1, 0, 1, 0,
   1, 1, 1, 0, 1, 0, 32, 0, 9, 0, 0, 0, 22, 0, 0, 0,
   137, 80, 78, 71, 13, 10, 26, 10, 0]

/-- A one-entry ICO holding a 1×1 DIB with `bits_per_pixel = 3`: a
3-bit depth, outside {1,2,4,8,24,32}.  Its 8-color palette starts with
the quad `(10, 20, 30, 0)`, its XOR map is empty (`imageSize = 0`, and
`1 * 1 * 3 / 8 = 0`), and its AND mask is one all-zero padded row. -/
def bpp3Ico : List Nat :=
  [0, 0, 1, 0, 1, 0,
   1, 1, 8, 0, 1, 0, 3, 0, 36, 0, 0, 0, 22, 0, 0, 0,
   40, 0, 0, 0, 1, 0, 0, 0, 1, 0, 0, 0, 1, 0, 3, 0, 0, 0, 0, 0, 0, 0, 0, 0,
   0, 0, 0, 0, 0, 0, 0, 0, 0, 0, 0, 0, 0, 0, 0, 0,
   10, 20, 30, 0, 0, 0, 0, 0, 0, 0, 0, 0, 0, 0, 0, 0,
   0, 0, 0, 0, 0, 0, 0, 0, 0, 0, 0, 0, 0, 0, 0, 0,
   0, 0, 0, 0]

/-- A standalone 40-byte DIB header declaring `bits_per_pixel = 16`. -/
def bpp16Dib : List Nat :=
  [40, 0, 0, 0, 1, 0, 0, 0, 1, 0, 0, 0, 1, 0, 16, 0, 0, 0, 0, 0, 0, 0, 0, 0,
   0, 0, 0, 0, 0, 0, 0, 0, 0, 0, 0, 0, 0, 0, 0, 0]

/-- A two-entry ICO: entry A is 16×16 with 16 colors, entry B is 32×32
with a raw colorCount of 0 (normalized to 256). -/
def twoEntryIco : List Nat :=
  [0, 0, 1, 0, 2, 0,
   16, 16, 16, 0, 1, 0, 4, 0, 0, 0, 0, 0, 0, 0, 0, 0,
   32, 32, 0, 0, 1, 0, 8, 0, 0, 0, 0, 0, 0, 0, 0, 0]

/-- A one-entry ICO whose payload at the selected offset 22 is the
four-byte little-endian word 41: not a PNG, and a DIB size other than
40. -/
def dib41Ico : List Nat :=
  [0, 0, 1, 0, 1, 0,
   1, 1, 1, 0, 1, 0, 0, 0, 4, 0, 0, 0, 22, 0, 0, 0,
   41, 0, 0, 0]

/-! ### Helper lemmas -/

/-- A comprehension whose element expression never raises evaluates to the
plain mapped list. -/
theorem mapE_ok {α β : Type} (f : α → Except IcoError β) (g : α → β) :
    ∀ l : List α, (∀ a ∈ l, f a = Except.ok (g a)) →
      mapE f l = Except.ok (l.map g) := by
  intro l
  induction l with
  | nil => intro _; rfl
  | cons a as ih =>
    intro hall
    have ha := hall a (List.mem_cons_self a as)
    have has := ih (fun x hx => hall x (List.mem_cons_of_mem a hx))
    simp only [mapE, ha, has, List.map_cons]
    rfl

theorem keyLt_irrefl (a : DirEntry) : ¬ keyLt a a := by
  unfold keyLt; omega

/-- If `e` strictly beats `d` and `r` is not beaten by `e`, then `r` is
not beaten by `d`. -/
theorem keyLt_push (d e r : DirEntry) (h1 : keyLt d e) (h2 : ¬ keyLt r e) :
    ¬ keyLt r d := by
  unfold keyLt at h1 h2 ⊢; omega

/-- If `e` does not beat `d` and `r` is not beaten by `d`, then `r` is
not beaten by `e`. -/
theorem keyLt_push2 (d e r : DirEntry) (h1 : ¬ keyLt d e) (h2 : ¬ keyLt r d) :
    ¬ keyLt r e := by
  unfold keyLt at h1 h2 ⊢; omega

theorem foldl_best_mem (ds : List DirEntry) :
    ∀ d : DirEntry,
      ds.foldl (fun best e => if keyLt best e then e else best) d ∈ d :: ds := by
  induction ds with
  | nil => intro d; simp
  | cons e ds ih =>
    intro d
    simp only [List.foldl_cons]
    by_cases h : keyLt d e
    · rw [if_pos h]
      exact List.mem_cons_of_mem d (ih e)
    · rw [if_neg h]
      rcases List.mem_cons.mp (ih d) with h1 | h1
      · rw [h1]; exact List.mem_cons_self d (e :: ds)
      · exact List.mem_cons_of_mem d (List.mem_cons_of_mem e h1)

theorem foldl_best_max (ds : List DirEntry) :
    ∀ d p : DirEntry, p ∈ d :: ds →
      ¬ keyLt (ds.foldl (fun best e => if keyLt best e then e else best) d) p := by
  induction ds with
  | nil =>
    intro d p hp
    rcases List.mem_cons.mp hp with h1 | h1
    · rw [List.foldl_nil, h1]; exact keyLt_irrefl d
    · exact absurd h1 (List.not_mem_nil p)
  | cons e ds ih =>
    intro d p hp
    simp only [List.foldl_cons]
    by_cases h : keyLt d e
    · rw [if_pos h]
      rcases List.mem_cons.mp hp with h1 | h1
      · rw [h1]
        exact keyLt_push d e _ h (ih e e (List.mem_cons_self e ds))
      · exact ih e p h1
    · rw [if_neg h]
      rcases List.mem_cons.mp hp with h1 | h1
      · rw [h1]; exact ih d d (List.mem_cons_self d ds)
      · rcases List.mem_cons.mp h1 with h2 | h2
        · rw [h2]
          exact keyLt_push2 d e _ h (ih d d (List.mem_cons_self d ds))
        · exact ih d p (List.mem_cons_of_mem d h2)

/-- `max` over a nonempty list returns a member no other member strictly
exceeds under the three-field lexicographic key. -/
theorem selectBest_spec (dirs : List DirEntry) (d : DirEntry)
    (hsel : selectBest dirs = some d) :
    d ∈ dirs ∧ ∀ e ∈ dirs, ¬ keyLt d e := by
  cases dirs with
  | nil => exact absurd hsel (by simp [selectBest])
  | cons d0 ds =>
    have hd : ds.foldl (fun best e => if keyLt best e then e else best) d0 = d := by
      simpa [selectBest] using hsel
    constructor
    · rw [← hd]; exact foldl_best_mem ds d0
    · intro e he
      rw [← hd]
      exact foldl_best_max ds d0 e he

/-- If the 16-byte Python slice at `a` equals the 8-byte signature, the
buffer ends exactly 8 bytes after `a` and the 8-byte slice also equals
the signature. -/
theorem png16_to_png8 (data : List Nat) (a : Nat)
    (h : pySlice data a (a + 16) = pngSignature) :
    pySlice data a (a + 8) = pngSignature := by
  have hlen : (pySlice data a (a + 16)).length = 8 := by rw [h]; rfl
  have hl : min (a + 16) data.length - a = 8 := by
    simpa [pySlice, List.length_drop, List.length_take] using hlen
  have h8 : data.take (a + 8) = data := List.take_of_length_le (by omega)
  have h16 : data.take (a + 16) = data := List.take_of_length_le (by omega)
  unfold pySlice at h ⊢
  rw [h8]
  rw [h16] at h
  exact h

/-- After a valid header, in-range directory, a selected entry and a
failed embedded-PNG test, the conversion is the DIB branch on the
entry's fields. -/
theorem ico2png_dib (data : List Nat) (d : DirEntry)
    (h6 : ¬ data.length < 6) (h0 : u16le data 0 = 0) (h1 : u16le data 2 = 1)
    (hcnt : ¬ (0 < u16le data 4 ∧ data.length < 6 + 16 * u16le data 4))
    (hsel : selectBest (icoDirectories data) = some d)
    (hpng : pySlice data d.offset (d.offset + 16) ≠ pngSignature) :
    ico2png data = decodeDib data d.w d.h d.offset := by
  unfold ico2png
  rw [if_neg h6, if_neg (not_not_intro ⟨h0, h1⟩), if_neg hcnt, hsel]
  exact if_neg hpng

/-- With the whole pixel array inside the buffer the 32-bit branch
succeeds, and each emitted quad is the source quad at
`offset + 40 + 4 * (y * width + x)` reordered to
`(byte 2, byte 1, byte 0, byte 3)`, rows read bottom to top. -/
theorem decode32_ok (data : List Nat) (width height offset : Nat)
    (hpix : offset + 40 + 4 * (width * height) ≤ data.length) :
    decode32 data width height offset =
      Except.ok (IcoOutput.image width height
        (((List.range height).reverse).map (fun y =>
          ((List.range width).map (fun x =>
            [u8 data (offset + 40 + 4 * (y * width + x) + 2),
             u8 data (offset + 40 + 4 * (y * width + x) + 1),
             u8 data (offset + 40 + 4 * (y * width + x)),
             u8 data (offset + 40 + 4 * (y * width + x) + 3)])).flatten))) := by
  unfold decode32
  have houter :
      mapE (fun y => do
          let pxs ← mapE (fun x =>
              if data.length < offset + 40 + 4 * (y * width + x) + 4 then
                Except.error IcoError.structError
              else
                Except.ok [u8 data (offset + 40 + 4 * (y * width + x) + 2),
                           u8 data (offset + 40 + 4 * (y * width + x) + 1),
                           u8 data (offset + 40 + 4 * (y * width + x)),
                           u8 data (offset + 40 + 4 * (y * width + x) + 3)])
            (List.range width)
          pure pxs.flatten)
        ((List.range height).reverse) =
      Except.ok (((List.range height).reverse).map (fun y =>
        ((List.range width).map (fun x =>
          [u8 data (offset + 40 + 4 * (y * width + x) + 2),
           u8 data (offset + 40 + 4 * (y * width + x) + 1),
           u8 data (offset + 40 + 4 * (y * width + x)),
           u8 data (offset + 40 + 4 * (y * width + x) + 3)])).flatten)) := by
    apply mapE_ok
    intro y hy
    have hy2 : y < height := List.mem_range.mp (List.mem_reverse.mp hy)
    have hinner := mapE_ok
      (fun x =>
        if data.length < offset + 40 + 4 * (y * width + x) + 4 then
          Except.error IcoError.structError
        else
          Except.ok [u8 data (offset + 40 + 4 * (y * width + x) + 2),
                     u8 data (offset + 40 + 4 * (y * width + x) + 1),
                     u8 data (offset + 40 + 4 * (y * width + x)),
                     u8 data (offset + 40 + 4 * (y * width + x) + 3)])
      (fun x =>
        [u8 data (offset + 40 + 4 * (y * width + x) + 2),
         u8 data (offset + 40 + 4 * (y * width + x) + 1),
         u8 data (offset + 40 + 4 * (y * width + x)),
         u8 data (offset + 40 + 4 * (y * width + x) + 3)])
      (List.range width)
      (by
        intro x hx
        have hx2 : x < width := List.mem_range.mp hx
        beta_reduce
        rw [if_neg]
        have e1 : (y + 1) * width = y * width + width := by ring
        have h3 : (y + 1) * width ≤ height * width :=
          Nat.mul_le_mul (by omega) (le_refl width)
        have e2 : height * width = width * height := Nat.mul_comm height width
        omega)
    rw [hinner]
    rfl
  rw [houter]
  rfl

/-! ### The claims -/

/-- Claim C1 as stated is false: on `dib32Ico`, a 1×1 32-bit entry whose
single source quad is `(1, 2, 3, 7)`, the emitted pixel is `(3, 2, 1, 7)`
— the fourth source byte 7 is used as the output alpha channel instead
of being discarded in favor of 255. -/
theorem C1_counterexample :
    ico2png dib32Ico = Except.ok (IcoOutput.image 1 1 [[3, 2, 1, 7]]) ∧
    (7 : Nat) ≠ 255 :=
  ⟨rfl, by decide⟩

/-- Claim C1 amended: for every 32-bit DIB entry decoded by the
conversion, each output pixel is `(red, green, blue, reservedByte)` — the
fourth source byte of the `(blue, green, red, reserved)` quad is passed
through as the alpha channel, not replaced by 255. -/
theorem C1_alpha_passthrough (data : List Nat) (d : DirEntry)
    (h6 : ¬ data.length < 6) (h0 : u16le data 0 = 0) (h1 : u16le data 2 = 1)
    (hcnt : ¬ (0 < u16le data 4 ∧ data.length < 6 + 16 * u16le data 4))
    (hsel : selectBest (icoDirectories data) = some d)
    (hpng : pySlice data d.offset (d.offset + 16) ≠ pngSignature)
    (hsize : u32le data d.offset = 40)
    (hbpp : u16le data (d.offset + 14) = 32)
    (hpix : d.offset + 40 + 4 * (d.w * d.h) ≤ data.length) :
    ico2png data = Except.ok (IcoOutput.image d.w d.h
      (((List.range d.h).reverse).map (fun y =>
        ((List.range d.w).map (fun x =>
          [u8 data (d.offset + 40 + 4 * (y * d.w + x) + 2),
           u8 data (d.offset + 40 + 4 * (y * d.w + x) + 1),
           u8 data (d.offset + 40 + 4 * (y * d.w + x)),
           u8 data (d.offset + 40 + 4 * (y * d.w + x) + 3)])).flatten))) := by
  rw [ico2png_dib data d h6 h0 h1 hcnt hsel hpng]
  unfold decodeDib
  rw [if_neg (by omega), if_neg (by simp [hsize]), if_neg (by omega),
    if_neg (by omega), if_pos hbpp]
  exact decode32_ok data d.w d.h d.offset hpix

/-- Closed instance of the amended claim C1 on `dib32Ico`. -/
theorem C1_alpha_passthrough_witness :
    ico2png dib32Ico = Except.ok (IcoOutput.image 1 1 [[3, 2, 1, 7]]) := by
  exact C1_alpha_passthrough dib32Ico ⟨1, 1, 1, 0, 1, 32, 44, 22⟩
    (by decide) rfl rfl (by decide) rfl (by decide) rfl rfl (by decide)

/-- Claim C2 fails on the code: on `pngTailIco` the 8 bytes at the
selected offset 22 are exactly the PNG signature, yet the conversion does
not return the tail verbatim — the comparison of the 16-byte slice
`data[offset:offset+16]` against the 8-byte signature string fails
whenever more than 8 bytes remain, so the DIB branch misreads the
signature as a DIB size and rejects it. -/
theorem C2_code_bug :
    pySlice pngTailIco 22 (22 + 8) = pngSignature ∧
    ico2png pngTailIco = Except.error IcoError.unsupportedFormatError :=
  ⟨rfl, rfl⟩

/-- Claim C3 as stated is false: on `bpp3Ico`, whose DIB declares the
unsupported depth `bits_per_pixel = 3`, the conversion does not fail —
the `bits_per_pixel <= 8` test routes every depth up to 8 into the
palette path, and the entry decodes to one opaque pixel of the first
palette color. -/
theorem C3_counterexample :
    u16le bpp3Ico (22 + 14) = 3 ∧
    ico2png bpp3Ico = Except.ok (IcoOutput.image 1 1 [[30, 20, 10, 255]]) :=
  ⟨rfl, rfl⟩

/-- Claim C3 amended: the DIB branch rejects a pixel depth with
`UnsupportedFormatError` exactly when it is greater than 8 and neither
24 nor 32 (for example 16); depths of at most 8 — including 0, 3, 5, 6
and 7 — are all routed to the palette-indexed path instead. -/
theorem C3_depth_rejection (data : List Nat) (width height offset : Nat)
    (hsize : u32le data offset = 40)
    (hlen : offset + 40 ≤ data.length)
    (hbpp : 8 < u16le data (offset + 14))
    (h24 : u16le data (offset + 14) ≠ 24)
    (h32 : u16le data (offset + 14) ≠ 32) :
    decodeDib data width height offset =
      Except.error IcoError.unsupportedFormatError := by
  unfold decodeDib
  rw [if_neg (by omega), if_neg (by simp [hsize]), if_neg (by omega),
    if_neg (by omega), if_neg h32, if_neg h24]

/-- Closed instance of the amended claim C3: a 16-bit DIB is rejected. -/
theorem C3_depth_rejection_witness :
    decodeDib bpp16Dib 1 1 0 = Except.error IcoError.unsupportedFormatError := by
  exact C3_depth_rejection bpp16Dib 1 1 0 rfl (by decide) (by decide)
    (by decide) (by decide)

/-- Claim C4: in the palette-indexed path, with the AND-map row stride
`((width + 31) >> 5) << 2` bytes, a mask bit of 1 at
`srcRow * rowStrideBits + x` (with `srcRow = height - y - 1`) makes the
emitted quad exactly `(0, 0, 0, 0)` whatever the XOR map holds, and a
mask bit of 0 emits the palette color selected by the
`bitsPerPixel`-wide XOR-map group at that position, with alpha 255. -/
theorem C4_mask_transparency (palette : List (Nat × Nat × Nat))
    (xorBits andBits : List Nat) (bpp width height x y : Nat) :
    (andBits.get? ((height - y - 1) * ((((width + 31) >>> 5) <<< 2) * 8) + x) =
        some 1 →
      get_pixel palette xorBits andBits bpp width height
          (((width + 31) >>> 5) <<< 2) x y = Except.ok [0, 0, 0, 0]) ∧
    (∀ r g b,
      andBits.get? ((height - y - 1) * ((((width + 31) >>> 5) <<< 2) * 8) + x) =
        some 0 →
      palette.get? (bitlistvalue (pySlice xorBits
          (bpp * ((height - y - 1) * width + x))
          (bpp * ((height - y - 1) * width + x) + bpp))) = some (r, g, b) →
      get_pixel palette xorBits andBits bpp width height
          (((width + 31) >>> 5) <<< 2) x y = Except.ok [r, g, b, 255]) := by
  constructor
  · intro hbit
    rw [← Nat.mul_assoc] at hbit
    unfold get_pixel
    rw [hbit]
    rfl
  · intro r g b hbit hpal
    rw [← Nat.mul_assoc] at hbit
    unfold get_pixel
    rw [hbit, hpal]
    rfl

/-- Closed instance of claim C4 at a 1×1 icon: a set mask bit blanks the
pixel, a clear one emits palette color 0 opaquely. -/
theorem C4_mask_transparency_witness :
    get_pixel [(9, 8, 7)] [0] [1] 0 1 1 (((1 + 31) >>> 5) <<< 2) 0 0 =
      Except.ok [0, 0, 0, 0] ∧
    get_pixel [(9, 8, 7)] [0] [0] 0 1 1 (((1 + 31) >>> 5) <<< 2) 0 0 =
      Except.ok [9, 8, 7, 255] :=
  ⟨(C4_mask_transparency [(9, 8, 7)] [0] [1] 0 1 1 0 0).1 (by decide),
   (C4_mask_transparency [(9, 8, 7)] [0] [0] 0 1 1 0 0).2 9 8 7 (by decide)
     (by decide)⟩

/-- Claim C5: each of the three leading directory fields with raw byte
value 0 is independently replaced by 256 in the parsed entry — the form
selection and decoding then consume — and every other field is carried
over unchanged from the raw record. -/
theorem C5_zero_as_256 (data : List Nat) (i : Nat) :
    (parseEntry data i).w =
      (if u8 data (6 + 16 * i) = 0 then 256 else u8 data (6 + 16 * i)) ∧
    (parseEntry data i).h =
      (if u8 data (6 + 16 * i + 1) = 0 then 256 else u8 data (6 + 16 * i + 1)) ∧
    (parseEntry data i).cc =
      (if u8 data (6 + 16 * i + 2) = 0 then 256 else u8 data (6 + 16 * i + 2)) ∧
    (parseEntry data i).reserved = u8 data (6 + 16 * i + 3) ∧
    (parseEntry data i).planes = u16le data (6 + 16 * i + 4) ∧
    (parseEntry data i).bitCount = u16le data (6 + 16 * i + 6) ∧
    (parseEntry data i).bytesInRes = u32le data (6 + 16 * i + 8) ∧
    (parseEntry data i).offset = u32le data (6 + 16 * i + 12) :=
  ⟨rfl, rfl, rfl, rfl, rfl, rfl, rfl, rfl⟩

/-- Claim C6: the entry the conversion selects from the parsed,
normalized directory is a member of that directory which no other member
strictly exceeds under the lexicographic (width, height, colorCount)
key — larger width wins, ties broken by height, then by colorCount. -/
theorem C6_best_entry (data : List Nat) (d : DirEntry)
    (hsel : selectBest (icoDirectories data) = some d) :
    d ∈ icoDirectories data ∧ ∀ e ∈ icoDirectories data, ¬ keyLt d e :=
  selectBest_spec (icoDirectories data) d hsel

/-- Closed instance of claim C6 on `twoEntryIco`: the 32×32 entry with
256 colors is selected over the 16×16 one with 16 colors. -/
theorem C6_best_entry_witness :
    (⟨32, 32, 256, 0, 1, 8, 0, 0⟩ : DirEntry) ∈ icoDirectories twoEntryIco ∧
    ∀ e ∈ icoDirectories twoEntryIco,
      ¬ keyLt ⟨32, 32, 256, 0, 1, 8, 0, 0⟩ e :=
  C6_best_entry twoEntryIco ⟨32, 32, 256, 0, 1, 8, 0, 0⟩ rfl

/-- Claim C7: when the payload at the selected entry does not start with
the 8-byte PNG signature and its leading 32-bit word is not 40, the
conversion stops with `UnsupportedFormatError` (the DIB-size rejection),
producing no pixel output. -/
theorem C7_dib_size_rejection (data : List Nat) (d : DirEntry)
    (h6 : ¬ data.length < 6) (h0 : u16le data 0 = 0) (h1 : u16le data 2 = 1)
    (hcnt : ¬ (0 < u16le data 4 ∧ data.length < 6 + 16 * u16le data 4))
    (hsel : selectBest (icoDirectories data) = some d)
    (hpng : pySlice data d.offset (d.offset + 8) ≠ pngSignature)
    (hlen : d.offset + 4 ≤ data.length)
    (hsize : u32le data d.offset ≠ 40) :
    ico2png data = Except.error IcoError.unsupportedFormatError := by
  rw [ico2png_dib data d h6 h0 h1 hcnt hsel
    (fun hc => hpng (png16_to_png8 data d.offset hc))]
  unfold decodeDib
  rw [if_neg (by omega), if_pos hsize]

/-- Closed instance of claim C7 on `dib41Ico`, whose payload word is 41. -/
theorem C7_dib_size_rejection_witness :
    ico2png dib41Ico = Except.error IcoError.unsupportedFormatError := by
  exact C7_dib_size_rejection dib41Ico ⟨1, 1, 1, 0, 1, 0, 4, 22⟩ (by decide)
    rfl rfl (by decide) rfl (by decide) (by decide) (by decide)

/-- Claim C8: a buffer shorter than 6 bytes, or whose first two 16-bit
words are not `(0, 1)`, is rejected at the header stage with the
conversion's first typed failure (the `raise TypeError` the spec calls
`FormatError`), before any output is assembled. -/
theorem C8_header_rejection (data : List Nat)
    (hbad : data.length < 6 ∨ ¬(u16le data 0 = 0 ∧ u16le data 2 = 1)) :
    ico2png data = Except.error IcoError.formatError := by
  unfold ico2png
  by_cases h6 : data.length < 6
  · rw [if_pos h6]
  · rw [if_neg h6, if_pos (hbad.resolve_left h6)]

/-- Closed instance of claim C8 on a 1-byte buffer. -/
theorem C8_header_rejection_witness :
    ico2png [0] = Except.error IcoError.formatError :=
  C8_header_rejection [0] (Or.inl (by decide))

/-- Claim C9 as stated is false: the 6-byte buffer `00 00 01 00 01 00`
declares one image but holds no directory record, and the conversion
fails with the unhandled `struct.error` of an `unpack` on a short slice
— not with the `raise TypeError` failure the spec calls `FormatError`. -/
theorem C9_counterexample :
    ico2png [0, 0, 1, 0, 1, 0] = Except.error IcoError.structError ∧
    IcoError.structError ≠ IcoError.formatError :=
  ⟨rfl, by decide⟩

/-- Claim C9 amended: a valid 6-byte header followed by fewer than
`16 * imageCount` bytes makes the conversion fail — but through the
unguarded directory `unpack` raising `struct.error`, not through the
typed `FormatError` (`TypeError`) path used for header rejection. -/
theorem C9_short_directory (data : List Nat) (h6 : ¬ data.length < 6)
    (h0 : u16le data 0 = 0) (h1 : u16le data 2 = 1)
    (hcnt : 0 < u16le data 4)
    (hshort : data.length < 6 + 16 * u16le data 4) :
    ico2png data = Except.error IcoError.structError := by
  unfold ico2png
  rw [if_neg h6, if_neg (not_not_intro ⟨h0, h1⟩), if_pos ⟨hcnt, hshort⟩]

/-- Closed instance of the amended claim C9. -/
theorem C9_short_directory_witness :
    ico2png [0, 0, 1, 0, 1, 0] = Except.error IcoError.structError := by
  exact C9_short_directory [0, 0, 1, 0, 1, 0] (by decide) rfl rfl (by decide)
    (by decide)

/-- Claim C10: a valid header declaring zero images leaves the directory
list empty, so `max` raises `ValueError` — an exception distinct from
both typed failures — before any output is produced. -/
theorem C10_zero_images (data : List Nat) (h6 : ¬ data.length < 6)
    (h0 : u16le data 0 = 0) (h1 : u16le data 2 = 1)
    (hc : u16le data 4 = 0) :
    ico2png data = Except.error IcoError.valueError ∧
    IcoError.valueError ≠ IcoError.formatError ∧
    IcoError.valueError ≠ IcoError.unsupportedFormatError := by
  refine ⟨?_, by decide, by decide⟩
  unfold ico2png
  rw [if_neg h6, if_neg (not_not_intro ⟨h0, h1⟩), if_neg (by simp [hc])]
  have hdir : icoDirectories data = [] := by
    simp [icoDirectories, hc]
  rw [hdir]
  rfl

/-- Closed instance of claim C10 on the header-only buffer
`00 00 01 00 00 00`. -/
theorem C10_zero_images_witness :
    ico2png [0, 0, 1, 0, 0, 0] = Except.error IcoError.valueError ∧
    IcoError.valueError ≠ IcoError.formatError ∧
    IcoError.valueError ≠ IcoError.unsupportedFormatError :=
  C10_zero_images [0, 0, 1, 0, 0, 0] (by decide) rfl rfl rfl

end IcoPng
